import Mathlib

/-!
Verification development for the `rust-orb-billing` client library: the
pagination / response-shape reconciliation layer and the resource endpoint
layer, embedded shallowly in Lean from `src/client/subscriptions.rs`,
`src/client/invoices.rs` and the spec of the modules not present in the
source tree (`client/mod.rs`, `config.rs`, `error.rs`, `customers.rs`).
-/

namespace Orb

/-! ## Out-of-scope domain payload stand-ins

The spec (§1) scopes out "the domain schema for every resource … beyond what
pagination/reshaping touches".  The following types are carried opaquely by
the operations verified here — no claim inspects their contents — so each is
represented by its identity data only (§3: "identity is its server-assigned
ID string"). -/

/-- Stand-in for `time::OffsetDateTime` (external crate): an instant carried
opaquely, represented by its timestamp. -/
structure OffsetDateTime where
  unixNanos : Int
deriving DecidableEq

/-- Stand-in for `ordered_float::OrderedFloat<f64>` (external crate): a float
carried opaquely, represented by its bit pattern. -/
structure OrderedFloat where
  bits : Nat
deriving DecidableEq

/-- Stand-in for `Plan` (`client/plans.rs`, not under src/): out-of-scope
domain payload, carried opaquely. -/
structure Plan where
  id : String
deriving DecidableEq

/-- Stand-in for `RedeemedCoupon` (`client/coupons.rs`, not under src/):
out-of-scope domain payload, carried opaquely. -/
structure RedeemedCoupon where
  coupon_id : String
deriving DecidableEq

/-- Stand-in for `PriceInterval` (`client/prices.rs`): out-of-scope domain
payload, carried opaquely by the subscription operations. -/
structure PriceInterval where
  id : String
deriving DecidableEq

/-- Stand-in for `SubscriptionAdjustmentInterval` (`client/prices.rs`):
out-of-scope domain payload, carried opaquely. -/
structure SubscriptionAdjustmentInterval where
  id : String
deriving DecidableEq

/-- Stand-in for `QuantityOnlyPriceOverride` (`client/prices.rs`):
out-of-scope request payload, carried opaquely. -/
structure QuantityOnlyPriceOverride where
  id : String
deriving DecidableEq

/-- Stand-in for `EditPriceInterval` (`client/prices.rs`): out-of-scope
request payload, carried opaquely. -/
structure EditPriceInterval where
  price_interval_id : String
deriving DecidableEq

/-- Stand-in for `AddAdjustmentInterval` (`client/prices.rs`): out-of-scope
request payload, carried opaquely. -/
structure AddAdjustmentInterval where
  id : String
deriving DecidableEq

/-- Stand-in for `EditAdjustmentInterval` (`client/prices.rs`): out-of-scope
request payload, carried opaquely. -/
structure EditAdjustmentInterval where
  id : String
deriving DecidableEq

/-- Stand-in for `ExternalMarketplace` (`client/marketplaces.rs`, not under
src/): out-of-scope payload, carried opaquely. -/
structure ExternalMarketplace where
  name : String
deriving DecidableEq

/-! ## Modules not under src/, modelled from the spec -/

/-- Modelled from the spec: `CustomerId` from `client/customers.rs` (not
under src/).  Its two variants are visible at the call sites in
`subscriptions.rs`/`invoices.rs`, which serialize them as `customer_id`
resp. `external_customer_id`. -/
inductive CustomerId where
  | Orb (id : String)
  | External (id : String)
deriving DecidableEq

/-- Modelled from the spec: `Customer` from `client/customers.rs` (not under
src/).  A domain record whose identity is its server-assigned ID string
(spec §3); its remaining schema is out of scope. -/
structure Customer where
  id : String
deriving DecidableEq

/-- Modelled from the spec: `CustomerResponse` from `client/customers.rs`
(not under src/): the union-shaped server record — a full customer object or
a `\x7bid, deleted\x7d` placeholder — decoded into a tagged variant (spec §3).
The variant names are visible at the match in
`Client::list_subscriptions`. -/
inductive CustomerResponse where
  | Normal (customer : Customer)
  | Deleted (id : String) (deleted : Bool)
deriving DecidableEq

/-- Modelled from the spec: the error taxonomy from `error.rs` (not under
src/), spec §7: `Transport`, `Api(status_code, message, detail)`,
`Deserialize`, and the unexpected-response-shape error whose variant name
`UnexpectedResponse \x7b detail \x7d` is visible at the construction site in
`Client::list_subscriptions`. -/
inductive Error where
  | transport
  | api (status_code : Nat) (message : String) (detail : String)
  | deserializeError
  | unexpectedResponse (detail : String)
deriving DecidableEq

/-- Modelled from the spec (§4.3): a failure is transient when it is a
network error, a 5xx response, or a rate-limit signal (HTTP 429); any other
4xx is non-transient. -/
def Error.isTransient : Error → Bool
  | .transport => true
  | .api status _ _ => 500 ≤ status || status == 429
  | .deserializeError => false
  | .unexpectedResponse _ => false

/-- Modelled from the spec: `ListParams` from `config.rs` (not under src/),
spec §3: a configuration value with a page size; `DEFAULT` is a constant
and `page_size` is a copy-on-write setter (the concrete default page size is
not observable from src/). -/
structure ListParams where
  page_size : Nat
deriving DecidableEq

/-- Modelled from the spec: the constant default list parameters. -/
def ListParams.DEFAULT : ListParams := { page_size := 20 }

/-- Modelled from the spec: copy-on-write setter for the page size. -/
def ListParams.set_page_size (p : ListParams) (n : Nat) : ListParams :=
  { p with page_size := n }

/-! ## Requests (spec §4.1, `build_request` modelled from the spec) -/

/-- An outgoing HTTP request: method, path segments, repeatable query
parameters, headers, and an optional JSON body represented as its top-level
field/value pairs. -/
structure Request where
  method : String
  path : List String
  query : List (String × String)
  headers : List (String × String)
  body : Option (List (String × String))
deriving DecidableEq

/-- Modelled from the spec: the shared, read-only client configuration
(base URL, bearer credential) from `config.rs`/`client/mod.rs` (not under
src/). -/
structure Client where
  base_url : String
  api_key : String
deriving DecidableEq

/-- Modelled from the spec (§4.1): `build(method, path_segments)` produces a
request pre-populated with the base URL + path and the authorization
header; no query, no body, no other headers. -/
def Client.build_request (c : Client) (method : String) (path : List String) : Request :=
  { method := method
    path := path
    query := []
    headers := [("Authorization", "Bearer " ++ c.api_key)]
    body := none }

/-- Fluent augmentation (spec §4.1): attach one query parameter pair
(repeatable key). -/
def Request.addQuery (r : Request) (key value : String) : Request :=
  { r with query := r.query ++ [(key, value)] }

/-- Fluent augmentation (spec §4.1): attach a one-off header. -/
def Request.addHeader (r : Request) (key value : String) : Request :=
  { r with headers := r.headers ++ [(key, value)] }

/-- Fluent augmentation (spec §4.1): attach a JSON body given as its
serialized top-level field/value pairs. -/
def Request.setBody (r : Request) (fields : List (String × String)) : Request :=
  { r with body := some fields }

/-- The values carried by every header of `r` with the given name. -/
def Request.headerValues (r : Request) (name : String) : List String :=
  (r.headers.filter (fun h => h.1 = name)).map (fun h => h.2)

/-- The top-level field names of the JSON body of `r` (empty when there is
no body). -/
def Request.bodyFieldNames (r : Request) : List String :=
  match r.body with
  | none => []
  | some fields => fields.map (fun f => f.1)

/-! ## Invoices (`src/client/invoices.rs`) -/

/-- `InvoiceCustomer`: identifies the customer associated with an invoice. -/
structure InvoiceCustomer where
  id : String
  external_id : Option String
deriving DecidableEq

/-- `InvoiceSubscription`: identifies the subscription associated with an
invoice. -/
structure InvoiceSubscription where
  id : String
deriving DecidableEq

/-- `InvoiceLineItem`: a line item on an invoice. -/
structure InvoiceLineItem where
  subtotal : String
  adjusted_subtotal : String
  partially_invoiced_amount : String
  amount : String
  name : String
deriving DecidableEq

/-- `AutoCollection`: auto-collection settings for an invoice. -/
structure AutoCollection where
  next_attempt_at : Option OffsetDateTime
  previously_attempted_at : Option OffsetDateTime
  enabled : Option Bool
  num_attempts : Option Nat
deriving DecidableEq

/-- `Invoice`: an Orb invoice (`metadata` modelled as an association list in
place of `BTreeMap<String, String>`). -/
structure Invoice where
  id : String
  customer : InvoiceCustomer
  subscription : Option InvoiceSubscription
  invoice_date : OffsetDateTime
  invoice_number : String
  invoice_pdf : Option String
  currency : String
  total : String
  amount_due : String
  created_at : OffsetDateTime
  issued_at : Option OffsetDateTime
  hosted_invoice_url : Option String
  status : String
  metadata : List (String × String)
  payment_failed_at : Option OffsetDateTime
  auto_collection : AutoCollection
  line_items : List InvoiceLineItem
deriving DecidableEq

/-- `InvoiceStatusFilter`: identifies the statuses of which invoices should
be returned. -/
structure InvoiceStatusFilter where
  draft : Bool
  issued : Bool
  paid : Bool
  void : Bool
  synced : Bool
deriving DecidableEq

/-- `InvoiceStatusFilter::DEFAULT`: the default invoice list status
filter. -/
def InvoiceStatusFilter.DEFAULT : InvoiceStatusFilter :=
  { issued := true
    paid := true
    synced := true
    draft := false
    void := false }

/-- `impl Default for InvoiceStatusFilter`. -/
def InvoiceStatusFilter.default : InvoiceStatusFilter :=
  InvoiceStatusFilter.DEFAULT

/-- `InvoiceListParams`: parameters for an invoice list operation. -/
structure InvoiceListParams where
  inner : ListParams
  customer_filter : Option CustomerId
  subscription_filter : Option String
  status_filter : InvoiceStatusFilter
deriving DecidableEq

/-- `InvoiceListParams::DEFAULT`: the default invoice list parameters. -/
def InvoiceListParams.DEFAULT : InvoiceListParams :=
  { inner := ListParams.DEFAULT
    customer_filter := none
    subscription_filter := none
    status_filter := InvoiceStatusFilter.DEFAULT }

/-- `impl Default for InvoiceListParams`. -/
def InvoiceListParams.default : InvoiceListParams :=
  InvoiceListParams.DEFAULT

/-- `InvoiceListParams::page_size`: copy-on-write setter for the page
size. -/
def InvoiceListParams.page_size (p : InvoiceListParams) (n : Nat) : InvoiceListParams :=
  { p with inner := p.inner.set_page_size n }

/-- `InvoiceListParams::customer_id`: copy-on-write setter filtering the
listing to the specified customer ID. -/
def InvoiceListParams.customer_id (p : InvoiceListParams) (filter : CustomerId) : InvoiceListParams :=
  { p with customer_filter := some filter }

/-- `InvoiceListParams::subscription_id`: copy-on-write setter filtering the
listing to the specified subscription ID. -/
def InvoiceListParams.subscription_id (p : InvoiceListParams) (filter : String) : InvoiceListParams :=
  { p with subscription_filter := some filter }

/-- `InvoiceListParams::status_filter`: copy-on-write setter filtering the
listing to a specified set of statuses. -/
def InvoiceListParams.set_status_filter (p : InvoiceListParams) (filter : InvoiceStatusFilter) : InvoiceListParams :=
  { p with status_filter := filter }

/-! ## Subscriptions (`src/client/subscriptions.rs`) -/

/-- `SubscriptionStatus`: the status of an Orb subscription. -/
inductive SubscriptionStatus where
  | Active
  | Ended
  | Upcoming
  | Other (status : String)
deriving DecidableEq

/-- `SubscriptionFixedFee`: an entry in
`Subscription::fixed_fee_quantity_schedule`. -/
structure SubscriptionFixedFee where
  start_date : OffsetDateTime
  end_date : Option OffsetDateTime
  price_id : String
  quantity : OrderedFloat
deriving DecidableEq

/-- `Subscription<C>`: an Orb subscription, generic over the customer
representation (`Customer` for the domain type, `CustomerResponse` for the
raw decoded union shape). -/
structure Subscription (C : Type) where
  id : String
  customer : C
  plan : Plan
  start_date : OffsetDateTime
  end_date : Option OffsetDateTime
  status : SubscriptionStatus
  current_billing_period_start_date : Option OffsetDateTime
  current_billing_period_end_date : Option OffsetDateTime
  active_plan_phase_order : Option Int
  fixed_fee_quantity_schedule : List SubscriptionFixedFee
  net_terms : Int
  auto_collection : Option Bool
  default_invoice_memo : Option String
  created_at : OffsetDateTime
  redeemed_coupon : Option RedeemedCoupon
  price_intervals : List PriceInterval
  adjustment_intervals : List SubscriptionAdjustmentInterval
  invoicing_threshold : Option String
deriving DecidableEq

/-- `SubscriptionListParams`: parameters for a subscription list
operation. -/
structure SubscriptionListParams where
  inner : ListParams
  customer_id_filter : Option CustomerId
  status_filter : Option String
deriving DecidableEq

/-- `SubscriptionListParams::DEFAULT`: the default subscription list
parameters. -/
def SubscriptionListParams.DEFAULT : SubscriptionListParams :=
  { inner := ListParams.DEFAULT
    customer_id_filter := none
    status_filter := none }

/-- `impl Default for SubscriptionListParams`. -/
def SubscriptionListParams.default : SubscriptionListParams :=
  SubscriptionListParams.DEFAULT

/-- `SubscriptionListParams::page_size`: copy-on-write setter for the page
size. -/
def SubscriptionListParams.page_size (p : SubscriptionListParams) (n : Nat) : SubscriptionListParams :=
  { p with inner := p.inner.set_page_size n }

/-- `SubscriptionListParams::customer_id`: copy-on-write setter filtering
the listing to the specified customer ID. -/
def SubscriptionListParams.customer_id (p : SubscriptionListParams) (filter : CustomerId) : SubscriptionListParams :=
  { p with customer_id_filter := some filter }

/-- `SubscriptionListParams::status`: copy-on-write setter filtering the
listing by status. -/
def SubscriptionListParams.status (p : SubscriptionListParams) (filter : String) : SubscriptionListParams :=
  { p with status_filter := some filter }

/-! ## The Paginator (spec §4.3; `stream_paginated_request` lives in
`client/mod.rs`, which is not under src/, so it is modelled from the
spec). -/

/-- One scripted transport outcome for a page fetch: either a decoded page
envelope `\x7b data, pagination.next_cursor \x7d` or a failure mapped
through the error taxonomy. -/
inductive PageFetch (α : Type) where
  | success (data : List α) (next_cursor : Option String)
  | failure (e : Error)
deriving DecidableEq

/-- The observable content of one page request: the cursor query parameter
(absent on the first page) and the page size, merged with the
caller-supplied filters fixed at construction (spec §4.3, Fetch). -/
structure PageRequest where
  cursor : Option String
  page_size : Nat
deriving DecidableEq

/-- Modelled from the spec (§4.3): the Paginator state machine, run to
completion against a scripted transport.  Returns the page requests issued
in order, the items yielded in order, and the terminal error if the
sequence ended with one.

* a successful page contributes its `data` in order; `next_cursor = none`
  makes the sequence end cleanly without consuming any further script
  entries;
* a transient failure is retried with the same cursor while attempts
  remain out of the fixed budget; the budget exhausted, the transient
  error terminates the sequence;
* a non-transient failure terminates the sequence immediately, no retry.

An exhausted script while a fetch is still owed is treated as a network
failure. -/
def paginate {α : Type} (budget page_size : Nat) :
    Option String → Nat → List (PageFetch α) →
    List PageRequest × List α × Option Error
  | _, _, [] => ([], [], some Error.transport)
  | cursor, attempts_left, f :: rest =>
    let req : PageRequest := ⟨cursor, page_size⟩
    match f with
    | .success data none => ([req], data, none)
    | .success data (some c) =>
      let r := paginate budget page_size (some c) budget rest
      (req :: r.1, data ++ r.2.1, r.2.2)
    | .failure e =>
      if e.isTransient then
        match attempts_left with
        | 0 => ([req], [], some e)
        | 1 => ([req], [], some e)
        | n + 2 =>
          let r := paginate budget page_size cursor (n + 1) rest
          (req :: r.1, r.2.1, r.2.2)
      else ([req], [], some e)

/-- Modelled from the spec (§4.3): `Client::stream_paginated_request`
(`client/mod.rs`, not under src/).  Starts in the Initial state: no
cursor, full retry budget. -/
def stream_paginated_request {α : Type} (budget : Nat) (params : ListParams)
    (script : List (PageFetch α)) :
    List PageRequest × List α × Option Error :=
  paginate budget params.page_size none budget script

/-- The observable behaviour of `futures_util`'s `try_filter_map` on a
finite stream: apply `f` to each yielded item in order; a filtered item
(`ok none`) is dropped, a produced item (`ok (some b)`) is yielded, and an
`error` terminates the sequence at that point, discarding the rest and any
later terminal error. -/
def try_filter_map {α β : Type} (f : α → Except Error (Option β)) :
    List α → Option Error → List β × Option Error
  | [], e => ([], e)
  | a :: rest, e =>
    match f a with
    | .error err => ([], some err)
    | .ok none => try_filter_map f rest e
    | .ok (some b) =>
      let r := try_filter_map f rest e
      (b :: r.1, r.2)

/-- The reconciliation transform applied per item by
`Client::list_subscriptions` (src lines 418–455): a normal embedded
customer maps the item to the domain subscription, copying every field; a
confirmed soft-deleted placeholder drops the item; an id-bearing
placeholder with `deleted = false` is an `UnexpectedResponse` error naming
the offending customer id. -/
def reconcile_subscription (s : Subscription CustomerResponse) :
    Except Error (Option (Subscription Customer)) :=
  match s.customer with
  | .Normal customer =>
    .ok (some
      { id := s.id
        customer := customer
        plan := s.plan
        start_date := s.start_date
        end_date := s.end_date
        status := s.status
        current_billing_period_start_date := s.current_billing_period_start_date
        current_billing_period_end_date := s.current_billing_period_end_date
        active_plan_phase_order := s.active_plan_phase_order
        fixed_fee_quantity_schedule := s.fixed_fee_quantity_schedule
        net_terms := s.net_terms
        auto_collection := s.auto_collection
        default_invoice_memo := s.default_invoice_memo
        created_at := s.created_at
        redeemed_coupon := s.redeemed_coupon
        price_intervals := s.price_intervals
        adjustment_intervals := s.adjustment_intervals
        invoicing_threshold := s.invoicing_threshold })
  | .Deleted _ true => .ok none
  | .Deleted id false =>
    .error (.unexpectedResponse
      ("customer " ++ id ++ " used deleted response shape but deleted field was `false`"))

/-- The base request built by `Client::list_subscriptions` (src lines
407–416): `GET /subscriptions` with the optional customer-id and status
filter query parameters. -/
def Client.list_subscriptions_request (c : Client) (params : SubscriptionListParams) : Request :=
  let req := c.build_request "GET" ["subscriptions"]
  let req := match params.customer_id_filter with
    | none => req
    | some (.Orb id) => req.addQuery "customer_id" id
    | some (.External id) => req.addQuery "external_customer_id" id
  match params.status_filter with
  | none => req
  | some status => req.addQuery "status" status

/-- `Client::list_subscriptions`: builds the filtered base request, streams
the paginated request, and applies the reconciliation transform via
`try_filter_map`.  Returns the base request, the page requests issued, the
domain subscriptions yielded, and the terminal error if any. -/
def Client.list_subscriptions (c : Client) (params : SubscriptionListParams) (budget : Nat)
    (script : List (PageFetch (Subscription CustomerResponse))) :
    Request × List PageRequest × List (Subscription Customer) × Option Error :=
  let base := c.list_subscriptions_request params
  let r := stream_paginated_request budget params.inner script
  let y := try_filter_map reconcile_subscription r.2.1 r.2.2
  (base, r.1, y.1, y.2)

/-- The `status[]` query-attachment loop of `Client::list_invoices` (src
lines 276–294): for each `(name, value)` pair in the fixed order draft,
issued, paid, void, synced, attach `("status[]", name)` when the flag is
true. -/
def invoice_status_query (req : Request) (f : InvoiceStatusFilter) : Request :=
  [("draft", f.draft), ("issued", f.issued), ("paid", f.paid),
   ("void", f.void), ("synced", f.synced)].foldl
    (fun r nv => if nv.2 then r.addQuery "status[]" nv.1 else r) req

/-- The base request built by `Client::list_invoices` (src lines 262–295):
`GET /invoices` with the optional customer and subscription filters and
the repeated `status[]` parameters. -/
def Client.list_invoices_request (c : Client) (params : InvoiceListParams) : Request :=
  let req := c.build_request "GET" ["invoices"]
  let req := match params.customer_filter with
    | none => req
    | some (.Orb id) => req.addQuery "customer_id" id
    | some (.External id) => req.addQuery "external_customer_id" id
  let req := match params.subscription_filter with
    | none => req
    | some id => req.addQuery "subscription_id" id
  invoice_status_query req params.status_filter

/-- `Client::list_invoices`: builds the filtered base request and streams
the paginated request (no reconciliation transform on this endpoint). -/
def Client.list_invoices (c : Client) (params : InvoiceListParams) (budget : Nat)
    (script : List (PageFetch Invoice)) :
    Request × List PageRequest × List Invoice × Option Error :=
  let base := c.list_invoices_request params
  let r := stream_paginated_request budget params.inner script
  (base, r.1, r.2.1, r.2.2)

/-! ## Mutation requests with idempotency keys
(`src/client/subscriptions.rs`) -/

/-- Modelled from the spec: `PlanId` from `client/plans.rs` (not under
src/); its serde-flattened serialization shape mirrors `CustomerId`, as
visible at the call sites. -/
inductive PlanId where
  | Orb (id : String)
  | External (id : String)
deriving DecidableEq

/-- The serde-flattened serialization of a `CustomerId` into top-level body
fields. -/
def CustomerId.serFields : CustomerId → List (String × String)
  | .Orb id => [("customer_id", id)]
  | .External id => [("external_customer_id", id)]

/-- The serde-flattened serialization of a `PlanId` into top-level body
fields. -/
def PlanId.serFields : PlanId → List (String × String)
  | .Orb id => [("plan_id", id)]
  | .External id => [("external_plan_id", id)]

/-- `SubscriptionExternalMarketplaceRequest`. -/
structure SubscriptionExternalMarketplaceRequest where
  kind : ExternalMarketplace
  reporting_id : String
deriving DecidableEq

/-- `CreateSubscriptionRequest`: the body of a create-subscription call.
`idempotency_key` carries `#[serde(skip_serializing)]` in the source: it is
passed in a request header, not the body. -/
structure CreateSubscriptionRequest where
  customer_id : CustomerId
  plan_id : PlanId
  start_date : Option OffsetDateTime
  external_marketplace : Option SubscriptionExternalMarketplaceRequest
  align_billing_with_subscription_start_date : Option Bool
  minimum_amount : Option String
  net_terms : Option Int
  auto_collection : Option Bool
  default_invoice_memo : Option String
  idempotency_key : Option String
  price_overrides : Option (List QuantityOnlyPriceOverride)
  coupon_redemption_code : Option String
  invoicing_threshold : Option String
deriving DecidableEq

/-- Opaque rendering of a serialized boolean value. -/
def renderBool (b : Bool) : String := if b then "true" else "false"

/-- Opaque rendering of a serialized timestamp value. -/
def renderDate (d : OffsetDateTime) : String := toString d.unixNanos

/-- Opaque rendering of a nullable string value (a field serialized even
when absent). -/
def renderOptStr : Option String → String
  | none => "null"
  | some s => s

/-- A field with `#[serde(skip_serializing_if = "Option::is_none")]`:
omitted entirely when absent. -/
def optField (name : String) : Option String → List (String × String)
  | none => []
  | some v => [(name, v)]

/-- Opaque rendering of a serialized external-marketplace value. -/
def renderMarketplace (m : SubscriptionExternalMarketplaceRequest) : String :=
  m.kind.name ++ ":" ++ m.reporting_id

/-- The top-level body fields serialized from a `CreateSubscriptionRequest`,
mirroring the serde attributes in the source: `customer_id` and `plan_id`
are flattened; the optional fields up to `invoicing_threshold` carry
`skip_serializing_if = "Option::is_none"`; `idempotency_key` carries
`skip_serializing` and is never emitted; `invoicing_threshold` has no skip
attribute and is always emitted. -/
def CreateSubscriptionRequest.bodyFields (r : CreateSubscriptionRequest) :
    List (String × String) :=
  r.customer_id.serFields ++ r.plan_id.serFields
    ++ optField "start_date" (r.start_date.map renderDate)
    ++ optField "external_marketplace" (r.external_marketplace.map renderMarketplace)
    ++ optField "align_billing_with_subscription_start_date"
        (r.align_billing_with_subscription_start_date.map renderBool)
    ++ optField "minimum_amount" r.minimum_amount
    ++ optField "net_terms" (r.net_terms.map toString)
    ++ optField "auto_collection" (r.auto_collection.map renderBool)
    ++ optField "default_invoice_memo" r.default_invoice_memo
    ++ optField "price_overrides"
        (r.price_overrides.map (fun l => String.intercalate "," (l.map (fun o => o.id))))
    ++ optField "coupon_redemption_code" r.coupon_redemption_code
    ++ [("invoicing_threshold", renderOptStr r.invoicing_threshold)]

/-- `Client::create_subscription` (src lines 459–471): `POST
/subscriptions`; attaches the `Idempotency-Key` header exactly when the
request carries a key, then the JSON body. -/
def Client.create_subscription (c : Client) (subscription : CreateSubscriptionRequest) : Request :=
  let req := c.build_request "POST" ["subscriptions"]
  let req := match subscription.idempotency_key with
    | some key => req.addHeader "Idempotency-Key" key
    | none => req
  req.setBody subscription.bodyFields

/-- `PriceIntervalsRequest`: a request to update the price intervals on a
subscription.  `idempotency_key` carries `#[serde(skip_serializing)]`. -/
structure PriceIntervalsRequest where
  edit : List EditPriceInterval
  add_adjustments : List AddAdjustmentInterval
  edit_adjustments : List EditAdjustmentInterval
  idempotency_key : Option String
deriving DecidableEq

/-- The top-level body fields serialized from a `PriceIntervalsRequest`:
the three interval lists are always emitted (rendered opaquely);
`idempotency_key` is never emitted. -/
def PriceIntervalsRequest.bodyFields (r : PriceIntervalsRequest) :
    List (String × String) :=
  [("edit", String.intercalate "," (r.edit.map (fun e => e.price_interval_id))),
   ("add_adjustments", String.intercalate "," (r.add_adjustments.map (fun a => a.id))),
   ("edit_adjustments", String.intercalate "," (r.edit_adjustments.map (fun a => a.id)))]

/-- `Client::price_intervals` (src lines 507–521): `POST
/subscriptions/\x7bid\x7d/price_intervals`; attaches the `Idempotency-Key`
header exactly when the request carries a key, then the JSON body. -/
def Client.price_intervals (c : Client) (id : String) (params : PriceIntervalsRequest) : Request :=
  let req := c.build_request "POST" ["subscriptions", id, "price_intervals"]
  let req := match params.idempotency_key with
    | some key => req.addHeader "Idempotency-Key" key
    | none => req
  req.setBody params.bodyFields

/-! ## Single-item operations (spec §4.2; `send_request` lives in
`client/mod.rs`, not under src/, so it is modelled from the spec). -/

/-- One transport outcome for a single request: a 2xx response whose body
decoded as `T` or failed to, a non-2xx response whose body decoded as the
structured error envelope or failed to, or a network failure. -/
inductive ApiResponse (T : Type) where
  | success (decoded : Option T)
  | errEnvelope (status_code : Nat) (message : String) (detail : String)
  | errRaw (status_code : Nat) (body : String)
  | netFailure

/-- Modelled from the spec (§4.2): `send_and_decode` maps one transport
outcome to exactly one result.  2xx with a schema mismatch is a
`Deserialize` error; a decodable error envelope becomes a structured `Api`
error; an undecodable one becomes a minimal `Api` error carrying the raw
status code and body; a network failure is a `Transport` error. -/
def send_and_decode {T : Type} : ApiResponse T → Except Error T
  | .success (some t) => .ok t
  | .success none => .error .deserializeError
  | .errEnvelope s m d => .error (.api s m d)
  | .errRaw s b => .error (.api s b "")
  | .netFailure => .error .transport

/-- Modelled from the spec (§4.2): `Client::send_request` executes the
request through the transport exactly once — the issued-request list it
returns for observation is the singleton — and decodes; no retry at this
layer. -/
def Client.send_request {T : Type} (transport : Request → ApiResponse T) (req : Request) :
    List Request × Except Error T :=
  ([req], send_and_decode (transport req))

/-- `Client::get_subscription` (src lines 474–478): `GET
/subscriptions/\x7bid\x7d` through `send_request`. -/
def Client.get_subscription (c : Client) (id : String)
    (transport : Request → ApiResponse (Subscription Customer)) :
    List Request × Except Error (Subscription Customer) :=
  Client.send_request transport (c.build_request "GET" ["subscriptions", id])

/-- `Client::get_invoice` (src lines 299–303): `GET /invoices/\x7bid\x7d`
through `send_request`. -/
def Client.get_invoice (c : Client) (id : String)
    (transport : Request → ApiResponse Invoice) :
    List Request × Except Error Invoice :=
  Client.send_request transport (c.build_request "GET" ["invoices", id])

/-! ## Script-building helpers for the pagination theorems -/

/-- A fully successful transport script from a list of `(data, next_cursor)`
pages. -/
def successScript {α : Type} (pages : List (List α × Option String)) : List (PageFetch α) :=
  pages.map (fun p => .success p.1 p.2)

/-- A well-formed page chain: nonempty, every page but the last carries
`some` next cursor, and the last carries `none`. -/
def chainedPages {α : Type} : List (List α × Option String) → Bool
  | [] => false
  | [(_, none)] => true
  | [(_, some _)] => false
  | (_, none) :: _ :: _ => false
  | (_, some _) :: q :: rest => chainedPages (q :: rest)

/-- The page requests the Paginator issues while walking a successful page
chain starting from `cursor`: each request carries the previous page's next
cursor. -/
def pageReqs {α : Type} (page_size : Nat) :
    Option String → List (List α × Option String) → List PageRequest
  | _, [] => []
  | cursor, (_, c) :: rest => ⟨cursor, page_size⟩ :: pageReqs (α := α) page_size c rest

/-- The per-item decision of the reconciliation transform viewed as a
filter: the produced domain subscription, or `none` when the item is
dropped or invalid. -/
def reconcile_keep (s : Subscription CustomerResponse) : Option (Subscription Customer) :=
  match reconcile_subscription s with
  | .ok v => v
  | .error _ => none

/-! ## Sample values used by the witnesses -/

/-- A sample client configuration. -/
def sampleClient : Client := ⟨"https://billing.example.com", "sample-key"⟩

/-- A sample instant. -/
def sampleDateTime : OffsetDateTime := ⟨0⟩

/-- A sample subscription carrying the given raw embedded customer. -/
def sampleSubscriptionWith (cr : CustomerResponse) : Subscription CustomerResponse :=
  { id := "sub_1"
    customer := cr
    plan := ⟨"plan_1"⟩
    start_date := sampleDateTime
    end_date := none
    status := .Active
    current_billing_period_start_date := none
    current_billing_period_end_date := none
    active_plan_phase_order := none
    fixed_fee_quantity_schedule := []
    net_terms := 0
    auto_collection := none
    default_invoice_memo := none
    created_at := sampleDateTime
    redeemed_coupon := none
    price_intervals := []
    adjustment_intervals := []
    invoicing_threshold := none }

/-- A sample create-subscription request carrying the given idempotency
key. -/
def sampleCreateRequest (key : Option String) : CreateSubscriptionRequest :=
  { customer_id := .Orb "cus_1"
    plan_id := .Orb "plan_1"
    start_date := none
    external_marketplace := none
    align_billing_with_subscription_start_date := none
    minimum_amount := none
    net_terms := none
    auto_collection := none
    default_invoice_memo := none
    idempotency_key := key
    price_overrides := none
    coupon_redemption_code := none
    invoicing_threshold := none }

/-- A sample price-intervals request carrying the given idempotency key. -/
def samplePriceIntervalsRequest (key : Option String) : PriceIntervalsRequest :=
  { edit := []
    add_adjustments := []
    edit_adjustments := []
    idempotency_key := key }

/-! ## Shared lemmas -/

/-- One Paginator step: a page envelope with no next cursor ends the
sequence with its data, consuming nothing further. -/
theorem paginate_success_none {α : Type} (budget page_size : Nat) (cursor : Option String)
    (attempts_left : Nat) (data : List α) (rest : List (PageFetch α)) :
    paginate budget page_size cursor attempts_left (.success data none :: rest) =
      ([⟨cursor, page_size⟩], data, none) := rfl

/-- One Paginator step: a page envelope with a next cursor contributes its
data and continues from that cursor with a refreshed retry budget. -/
theorem paginate_success_some {α : Type} (budget page_size : Nat) (cursor : Option String)
    (attempts_left : Nat) (data : List α) (c : String) (rest : List (PageFetch α)) :
    paginate budget page_size cursor attempts_left (.success data (some c) :: rest) =
      (⟨cursor, page_size⟩ :: (paginate budget page_size (some c) budget rest).1,
       data ++ (paginate budget page_size (some c) budget rest).2.1,
       (paginate budget page_size (some c) budget rest).2.2) := rfl

/-- One Paginator step: a transient failure with at least two attempts left
is retried with the same cursor and one fewer attempt. -/
theorem paginate_failure_retry {α : Type} (budget page_size : Nat) (cursor : Option String)
    (n : Nat) (e : Error) (he : e.isTransient = true) (rest : List (PageFetch α)) :
    paginate budget page_size cursor (n + 2) (.failure e :: rest) =
      (⟨cursor, page_size⟩ :: (paginate budget page_size cursor (n + 1) rest).1,
       (paginate budget page_size cursor (n + 1) rest).2.1,
       (paginate budget page_size cursor (n + 1) rest).2.2) := by
  simp [paginate, he]

/-- One Paginator step: a transient failure on the last allowed attempt
terminates the sequence with that error. -/
theorem paginate_failure_exhausted_one {α : Type} (budget page_size : Nat)
    (cursor : Option String) (e : Error) (rest : List (PageFetch α))
    (he : e.isTransient = true) :
    paginate budget page_size cursor 1 (.failure e :: rest) =
      ([⟨cursor, page_size⟩], [], some e) := by
  simp [paginate, he]

/-- One Paginator step: a non-transient failure terminates the sequence
immediately, whatever attempts remain. -/
theorem paginate_failure_nontransient {α : Type} (budget page_size : Nat)
    (cursor : Option String) (attempts_left : Nat) (e : Error)
    (rest : List (PageFetch α)) (he : e.isTransient = false) :
    paginate budget page_size cursor attempts_left (.failure e :: rest) =
      ([⟨cursor, page_size⟩], [], some e) := by
  cases attempts_left <;> simp [paginate, he]

/-- Walking a well-formed, fully successful page chain, the Paginator
issues exactly the chained requests, yields the concatenation of the pages'
data in order, and ends cleanly. -/
theorem paginate_success_script {α : Type} (budget page_size : Nat) :
    ∀ (pages : List (List α × Option String)) (cursor : Option String) (attempts_left : Nat),
      chainedPages pages = true →
      paginate budget page_size cursor attempts_left (successScript pages) =
        (pageReqs page_size cursor pages, (pages.map Prod.fst).flatten, none) := by
  intro pages
  induction pages with
  | nil => intro cursor a h; simp [chainedPages] at h
  | cons p rest ih =>
    intro cursor a h
    obtain ⟨d, c⟩ := p
    cases rest with
    | nil =>
      cases c with
      | none => simp [successScript, paginate_success_none, pageReqs]
      | some c => simp [chainedPages] at h
    | cons q rs =>
      cases c with
      | none => simp [chainedPages] at h
      | some c =>
        have h' : chainedPages (q :: rs) = true := by
          simpa [chainedPages] using h
        have hrec := ih (some c) budget h'
        show paginate budget page_size cursor a
            (.success d (some c) :: successScript (q :: rs)) = _
        rw [paginate_success_some, hrec]
        simp [pageReqs]

/-- The cursors of the chained requests: the starting cursor followed by
each page's next cursor except the last. -/
theorem pageReqs_map_cursor {α : Type} (page_size : Nat) :
    ∀ (pages : List (List α × Option String)) (cursor : Option String), pages ≠ [] →
      (pageReqs page_size cursor pages).map PageRequest.cursor =
        cursor :: (pages.map Prod.snd).dropLast := by
  intro pages
  induction pages with
  | nil => intro cursor h; exact absurd rfl h
  | cons p rest ih =>
    intro cursor _
    obtain ⟨d, c⟩ := p
    cases rest with
    | nil => simp [pageReqs]
    | cons q rs =>
      have hih := ih c (by simp)
      simp [pageReqs] at hih ⊢
      exact hih

/-- Every chained request carries the fixed page size. -/
theorem pageReqs_page_size {α : Type} (page_size : Nat) :
    ∀ (pages : List (List α × Option String)) (cursor : Option String),
      ∀ r ∈ pageReqs (α := α) page_size cursor pages, r.page_size = page_size := by
  intro pages
  induction pages with
  | nil => intro cursor r hr; simp [pageReqs] at hr
  | cons p rest ih =>
    intro cursor r hr
    obtain ⟨d, c⟩ := p
    rcases (by simpa [pageReqs] using hr : r = ⟨cursor, page_size⟩ ∨
        r ∈ pageReqs (α := α) page_size c rest) with h | h
    · simp [h]
    · exact ih c r h

/-- After the retry budget is spent on transient failures, the Paginator
terminates with the transient error, having issued exactly
`attempts_left` requests with the same cursor. -/
theorem paginate_transient_ge {α : Type} (budget page_size : Nat) (e : Error)
    (he : e.isTransient = true) :
    ∀ (attempts_left : Nat) (cursor : Option String) (rest : List (PageFetch α)),
      1 ≤ attempts_left →
      paginate budget page_size cursor attempts_left
          (List.replicate attempts_left (.failure e) ++ rest) =
        (List.replicate attempts_left ⟨cursor, page_size⟩, [], some e) := by
  intro a
  induction a with
  | zero => intro cursor rest h; omega
  | succ n ih =>
    intro cursor rest _
    cases n with
    | zero =>
      simpa using paginate_failure_exhausted_one budget page_size cursor e rest he
    | succ m =>
      rw [List.replicate_succ, List.cons_append,
        paginate_failure_retry budget page_size cursor m e he, ih cursor rest (by omega)]
      simp [List.replicate_succ]

/-- Transient failures within the retry budget are retried with the same
cursor, and the page's data is still yielded in full once the transport
recovers. -/
theorem paginate_transient_lt {α : Type} (budget page_size : Nat) (e : Error)
    (he : e.isTransient = true) (d : List α) :
    ∀ (K attempts_left : Nat) (cursor : Option String), K < attempts_left →
      paginate budget page_size cursor attempts_left
          (List.replicate K (.failure e) ++ [.success d none]) =
        (List.replicate (K + 1) ⟨cursor, page_size⟩, d, none) := by
  intro K
  induction K with
  | zero =>
    intro a cursor _
    simp [paginate_success_none]
  | succ k ih =>
    intro a cursor h
    obtain ⟨m, rfl⟩ : ∃ m, a = m + 2 := ⟨a - 2, by omega⟩
    rw [List.replicate_succ, List.cons_append,
      paginate_failure_retry budget page_size cursor m e he, ih (m + 1) cursor (by omega)]
    simp [List.replicate_succ]

/-- When no element of the stream maps to an error, `try_filter_map` is the
plain `filterMap` of the produced options and preserves clean
termination. -/
theorem try_filter_map_no_error {α β : Type} (f : α → Except Error (Option β)) :
    ∀ (l : List α), (∀ a ∈ l, ∀ e, f a ≠ .error e) →
      try_filter_map f l none =
        (l.filterMap (fun a =>
          match f a with
          | .ok v => v
          | .error _ => none), none) := by
  intro l
  induction l with
  | nil => intro _; simp [try_filter_map]
  | cons a rest ih =>
    intro h
    have ha := h a (by simp)
    have hrest : ∀ b ∈ rest, ∀ e, f b ≠ .error e := fun b hb => h b (by simp [hb])
    match hfa : f a with
    | .error e => exact absurd hfa (ha e)
    | .ok none => simp [try_filter_map, hfa, ih hrest]
    | .ok (some b) => simp [try_filter_map, hfa, ih hrest]

/-- A skip-if-none field only ever contributes its own name. -/
theorem pair_mem_optField {n v name : String} {o : Option String}
    (h : (n, v) ∈ optField name o) : n = name := by
  cases o with
  | none => simp [optField] at h
  | some w =>
    simp [optField] at h
    exact h.1

/-- A flattened `CustomerId` only ever contributes its two field names. -/
theorem pair_mem_serFields_customer_id {n v : String} {cid : CustomerId}
    (h : (n, v) ∈ cid.serFields) : n = "customer_id" ∨ n = "external_customer_id" := by
  cases cid with
  | Orb id =>
    simp [CustomerId.serFields] at h
    exact Or.inl h.1
  | External id =>
    simp [CustomerId.serFields] at h
    exact Or.inr h.1

/-- A flattened `PlanId` only ever contributes its two field names. -/
theorem pair_mem_serFields_plan_id {n v : String} {pid : PlanId}
    (h : (n, v) ∈ pid.serFields) : n = "plan_id" ∨ n = "external_plan_id" := by
  cases pid with
  | Orb id =>
    simp [PlanId.serFields] at h
    exact Or.inl h.1
  | External id =>
    simp [PlanId.serFields] at h
    exact Or.inr h.1

/-- The serialized create-subscription body never contains an
`idempotency_key` field (it carries `#[serde(skip_serializing)]`). -/
theorem create_bodyFields_no_key (r : CreateSubscriptionRequest) :
    "idempotency_key" ∉ r.bodyFields.map Prod.fst := by
  intro hmem
  simp [CreateSubscriptionRequest.bodyFields] at hmem
  rcases hmem with h | h | h | h | h | h | h | h | h | h | h
  · obtain ⟨x, hx⟩ := h
    rcases pair_mem_serFields_customer_id hx with h' | h' <;> simp at h'
  · obtain ⟨x, hx⟩ := h
    rcases pair_mem_serFields_plan_id hx with h' | h' <;> simp at h'
  all_goals obtain ⟨x, hx⟩ := h
  all_goals have h' := pair_mem_optField hx
  all_goals simp at h'

/-- The serialized price-intervals body never contains an
`idempotency_key` field. -/
theorem price_intervals_bodyFields_no_key (r : PriceIntervalsRequest) :
    "idempotency_key" ∉ r.bodyFields.map Prod.fst := by
  simp [PriceIntervalsRequest.bodyFields]

/-- The headers of a create-subscription request: the auth header, plus the
idempotency header exactly when the caller supplied a key. -/
theorem create_subscription_headers (c : Client) (r : CreateSubscriptionRequest) :
    (c.create_subscription r).headers =
      ("Authorization", "Bearer " ++ c.api_key) ::
        (match r.idempotency_key with
         | some k => [("Idempotency-Key", k)]
         | none => []) := by
  cases h : r.idempotency_key <;>
    simp [Client.create_subscription, Client.build_request, Request.addHeader,
      Request.setBody, h]

/-- The body field names of a create-subscription request are exactly its
serialized body fields, whatever the idempotency key. -/
theorem create_subscription_bodyFieldNames (c : Client) (r : CreateSubscriptionRequest) :
    (c.create_subscription r).bodyFieldNames = r.bodyFields.map Prod.fst := by
  cases h : r.idempotency_key <;>
    simp [Client.create_subscription, Client.build_request, Request.addHeader,
      Request.setBody, Request.bodyFieldNames, h]

/-- The headers of a price-intervals request: the auth header, plus the
idempotency header exactly when the caller supplied a key. -/
theorem price_intervals_headers (c : Client) (id : String) (p : PriceIntervalsRequest) :
    (c.price_intervals id p).headers =
      ("Authorization", "Bearer " ++ c.api_key) ::
        (match p.idempotency_key with
         | some k => [("Idempotency-Key", k)]
         | none => []) := by
  cases h : p.idempotency_key <;>
    simp [Client.price_intervals, Client.build_request, Request.addHeader,
      Request.setBody, h]

/-- The body field names of a price-intervals request are exactly its
serialized body fields, whatever the idempotency key. -/
theorem price_intervals_bodyFieldNames (c : Client) (id : String) (p : PriceIntervalsRequest) :
    (c.price_intervals id p).bodyFieldNames = p.bodyFields.map Prod.fst := by
  cases h : p.idempotency_key <;>
    simp [Client.price_intervals, Client.build_request, Request.addHeader,
      Request.setBody, Request.bodyFieldNames, h]

/-- When no element of the stream reconciles to an error, `try_filter_map`
over the reconciliation transform is the plain `filterMap` of the per-item
decisions and preserves clean termination. -/
theorem try_filter_map_reconcile (l : List (Subscription CustomerResponse))
    (hno : ∀ s ∈ l, ∀ e, reconcile_subscription s ≠ .error e) :
    try_filter_map reconcile_subscription l none = (l.filterMap reconcile_keep, none) := by
  induction l with
  | nil => simp [try_filter_map]
  | cons a rest ih =>
    have ha := hno a (by simp)
    have hrest : ∀ b ∈ rest, ∀ e, reconcile_subscription b ≠ .error e :=
      fun b hb => hno b (by simp [hb])
    match hfa : reconcile_subscription a with
    | .error e => exact absurd hfa (ha e)
    | .ok none => simp [try_filter_map, hfa, ih hrest, reconcile_keep]
    | .ok (some b) => simp [try_filter_map, hfa, ih hrest, reconcile_keep]

/-! ## Claim theorems -/

/-- **C1**: for every subscription yielded by `list_subscriptions` whose
embedded customer decoded to the union shape: the deleted placeholder with
`deleted = true` makes the enclosing item absent from the yielded sequence;
the placeholder with an id but `deleted = false` terminates the sequence
with an `UnexpectedResponse` error whose detail names the offending
customer id; a normal customer yields the item as a domain subscription
with every other field copied. -/
theorem c1_reconciliation_variants (c : Client) (params : SubscriptionListParams)
    (budget : Nat) (s : Subscription CustomerResponse) :
    (∀ id, s.customer = CustomerResponse.Deleted id true →
      (c.list_subscriptions params budget [.success [s] none]).2.2 = ([], none)) ∧
    (∀ id, s.customer = CustomerResponse.Deleted id false →
      (c.list_subscriptions params budget [.success [s] none]).2.2 =
        ([], some (Error.unexpectedResponse
          ("customer " ++ id ++
            " used deleted response shape but deleted field was `false`")))) ∧
    (∀ customer, s.customer = CustomerResponse.Normal customer →
      (c.list_subscriptions params budget [.success [s] none]).2.2 =
        ([{ id := s.id
            customer := customer
            plan := s.plan
            start_date := s.start_date
            end_date := s.end_date
            status := s.status
            current_billing_period_start_date := s.current_billing_period_start_date
            current_billing_period_end_date := s.current_billing_period_end_date
            active_plan_phase_order := s.active_plan_phase_order
            fixed_fee_quantity_schedule := s.fixed_fee_quantity_schedule
            net_terms := s.net_terms
            auto_collection := s.auto_collection
            default_invoice_memo := s.default_invoice_memo
            created_at := s.created_at
            redeemed_coupon := s.redeemed_coupon
            price_intervals := s.price_intervals
            adjustment_intervals := s.adjustment_intervals
            invoicing_threshold := s.invoicing_threshold }], none)) := by
  refine ⟨?_, ?_, ?_⟩ <;> intro x hx <;>
    simp [Client.list_subscriptions, stream_paginated_request, paginate_success_none,
      try_filter_map, reconcile_subscription, hx]

/-- **C1** witness: both placeholder variants exercised on a concrete
subscription. -/
theorem c1_reconciliation_variants_witness :
    (sampleSubscriptionWith (CustomerResponse.Deleted "x" true)).customer =
        CustomerResponse.Deleted "x" true ∧
    (sampleClient.list_subscriptions SubscriptionListParams.DEFAULT 3
        [.success [sampleSubscriptionWith (CustomerResponse.Deleted "x" true)] none]).2.2 =
      ([], none) ∧
    (sampleSubscriptionWith (CustomerResponse.Deleted "x" false)).customer =
        CustomerResponse.Deleted "x" false ∧
    (sampleClient.list_subscriptions SubscriptionListParams.DEFAULT 3
        [.success [sampleSubscriptionWith (CustomerResponse.Deleted "x" false)] none]).2.2 =
      ([], some (Error.unexpectedResponse
        ("customer " ++ "x" ++
          " used deleted response shape but deleted field was `false`"))) :=
  ⟨rfl,
   (c1_reconciliation_variants sampleClient SubscriptionListParams.DEFAULT 3
      (sampleSubscriptionWith (CustomerResponse.Deleted "x" true))).1 "x" rfl,
   rfl,
   (c1_reconciliation_variants sampleClient SubscriptionListParams.DEFAULT 3
      (sampleSubscriptionWith (CustomerResponse.Deleted "x" false))).2.1 "x" rfl⟩

/-- **C2**: a mutation call constructed with an idempotency key carries the
`Idempotency-Key` header with exactly the caller-supplied value and the key
is not serialized into the JSON body; without a key the header is absent
entirely — for both `create_subscription` and `price_intervals`. -/
theorem c2_idempotency_header (c : Client) (r : CreateSubscriptionRequest)
    (id : String) (p : PriceIntervalsRequest) (k k' : String) :
    ((r.idempotency_key = some k →
        (c.create_subscription r).headerValues "Idempotency-Key" = [k]) ∧
     (r.idempotency_key = none →
        (c.create_subscription r).headerValues "Idempotency-Key" = []) ∧
     "idempotency_key" ∉ (c.create_subscription r).bodyFieldNames) ∧
    ((p.idempotency_key = some k' →
        (c.price_intervals id p).headerValues "Idempotency-Key" = [k']) ∧
     (p.idempotency_key = none →
        (c.price_intervals id p).headerValues "Idempotency-Key" = []) ∧
     "idempotency_key" ∉ (c.price_intervals id p).bodyFieldNames) := by
  refine ⟨⟨?_, ?_, ?_⟩, ⟨?_, ?_, ?_⟩⟩
  · intro h
    simp [Request.headerValues, create_subscription_headers, h]
  · intro h
    simp [Request.headerValues, create_subscription_headers, h]
  · rw [create_subscription_bodyFieldNames]
    exact create_bodyFields_no_key r
  · intro h
    simp [Request.headerValues, price_intervals_headers, h]
  · intro h
    simp [Request.headerValues, price_intervals_headers, h]
  · rw [price_intervals_bodyFieldNames]
    exact price_intervals_bodyFields_no_key p

/-- **C2** witness: both the with-key and the without-key cases exercised
on concrete requests. -/
theorem c2_idempotency_header_witness :
    (sampleCreateRequest (some "key-1")).idempotency_key = some "key-1" ∧
    (sampleClient.create_subscription (sampleCreateRequest (some "key-1"))).headerValues
        "Idempotency-Key" = ["key-1"] ∧
    (sampleCreateRequest none).idempotency_key = none ∧
    (sampleClient.create_subscription (sampleCreateRequest none)).headerValues
        "Idempotency-Key" = [] ∧
    (samplePriceIntervalsRequest (some "key-2")).idempotency_key = some "key-2" ∧
    (sampleClient.price_intervals "sub_1"
        (samplePriceIntervalsRequest (some "key-2"))).headerValues
        "Idempotency-Key" = ["key-2"] :=
  ⟨rfl,
   (c2_idempotency_header sampleClient (sampleCreateRequest (some "key-1")) "sub_1"
      (samplePriceIntervalsRequest none) "key-1" "unused").1.1 rfl,
   rfl,
   (c2_idempotency_header sampleClient (sampleCreateRequest none) "sub_1"
      (samplePriceIntervalsRequest none) "unused" "unused").1.2.1 rfl,
   rfl,
   (c2_idempotency_header sampleClient (sampleCreateRequest none) "sub_1"
      (samplePriceIntervalsRequest (some "key-2")) "unused" "key-2").2.1 rfl⟩

/-- **C3**: over a well-formed chain of successful pages containing no
invalid placeholder, the sequence yielded by `list_subscriptions` equals
the concatenation of each page's data array in original server order,
minus exactly the items the reconciliation transform filters out, and the
sequence ends cleanly. -/
theorem c3_ordering_concatenation (c : Client) (params : SubscriptionListParams)
    (budget : Nat)
    (pages : List (List (Subscription CustomerResponse) × Option String))
    (hchain : chainedPages pages = true)
    (hvalid : ∀ s ∈ (pages.map Prod.fst).flatten, ∀ id,
      s.customer ≠ CustomerResponse.Deleted id false) :
    (c.list_subscriptions params budget (successScript pages)).2.2 =
      ((pages.map Prod.fst).flatten.filterMap reconcile_keep, none) := by
  have hno : ∀ s ∈ (pages.map Prod.fst).flatten, ∀ e,
      reconcile_subscription s ≠ .error e := by
    intro s hs e
    cases hcu : s.customer with
    | Normal cu => simp [reconcile_subscription, hcu]
    | Deleted did del =>
      cases del with
      | true => simp [reconcile_subscription, hcu]
      | false => exact absurd hcu (hvalid s hs did)
  have hp := paginate_success_script budget params.inner.page_size pages none budget hchain
  simp [Client.list_subscriptions, stream_paginated_request, hp,
    try_filter_map_reconcile (pages.map Prod.fst).flatten hno]

/-- **C3** witness: a concrete two-page chain whose second page contains a
confirmed soft-deleted placeholder, yielding the two normal items in order
and dropping the placeholder. -/
theorem c3_ordering_concatenation_witness :
    chainedPages
      [([sampleSubscriptionWith (CustomerResponse.Normal ⟨"c1"⟩)], some "p2"),
       ([sampleSubscriptionWith (CustomerResponse.Deleted "gone" true),
         sampleSubscriptionWith (CustomerResponse.Normal ⟨"c2"⟩)], none)] = true ∧
    (∀ s ∈ (([([sampleSubscriptionWith (CustomerResponse.Normal ⟨"c1"⟩)], some "p2"),
       ([sampleSubscriptionWith (CustomerResponse.Deleted "gone" true),
         sampleSubscriptionWith (CustomerResponse.Normal ⟨"c2"⟩)], none)].map Prod.fst :
          List (List (Subscription CustomerResponse))).flatten), ∀ id,
      s.customer ≠ CustomerResponse.Deleted id false) ∧
    (sampleClient.list_subscriptions SubscriptionListParams.DEFAULT 3
      (successScript
        [([sampleSubscriptionWith (CustomerResponse.Normal ⟨"c1"⟩)], some "p2"),
         ([sampleSubscriptionWith (CustomerResponse.Deleted "gone" true),
           sampleSubscriptionWith (CustomerResponse.Normal ⟨"c2"⟩)], none)])).2.2 =
      (([([sampleSubscriptionWith (CustomerResponse.Normal ⟨"c1"⟩)], some "p2"),
         ([sampleSubscriptionWith (CustomerResponse.Deleted "gone" true),
           sampleSubscriptionWith (CustomerResponse.Normal ⟨"c2"⟩)], none)].map
            Prod.fst).flatten.filterMap reconcile_keep, none) := by
  have hvalid : ∀ s ∈ (([([sampleSubscriptionWith (CustomerResponse.Normal ⟨"c1"⟩)], some "p2"),
       ([sampleSubscriptionWith (CustomerResponse.Deleted "gone" true),
         sampleSubscriptionWith (CustomerResponse.Normal ⟨"c2"⟩)], none)].map Prod.fst :
          List (List (Subscription CustomerResponse))).flatten), ∀ id,
      s.customer ≠ CustomerResponse.Deleted id false := by
    intro s hs id
    simp [sampleSubscriptionWith] at hs
    rcases hs with rfl | rfl | rfl <;> simp [sampleSubscriptionWith]
  exact ⟨rfl, hvalid,
    c3_ordering_concatenation sampleClient SubscriptionListParams.DEFAULT 3 _ rfl hvalid⟩

/-- **C4**: over a well-formed chain of N successful pages, the cursor
query parameter of the i-th page request equals byte-for-byte the
`next_cursor` returned by page i-1, and the first page request carries no
cursor. -/
theorem c4_cursor_fidelity {α : Type} (budget : Nat) (params : ListParams)
    (pages : List (List α × Option String)) (hchain : chainedPages pages = true) :
    ((stream_paginated_request budget params (successScript pages)).1).map
        PageRequest.cursor =
      none :: (pages.map Prod.snd).dropLast := by
  have hne : pages ≠ [] := by
    intro h
    rw [h] at hchain
    simp [chainedPages] at hchain
  have hp := paginate_success_script budget params.page_size pages none budget hchain
  simp [stream_paginated_request, hp, pageReqs_map_cursor params.page_size pages none hne]

/-- **C4** witness: a concrete two-page chain with cursor `p2`. -/
theorem c4_cursor_fidelity_witness :
    chainedPages [(["a"], some "p2"), (["b"], (none : Option String))] = true ∧
    ((stream_paginated_request 3 ListParams.DEFAULT
        (successScript [(["a"], some "p2"), (["b"], none)])).1).map PageRequest.cursor =
      [none, some "p2"] :=
  ⟨rfl, c4_cursor_fidelity 3 ListParams.DEFAULT [(["a"], some "p2"), (["b"], none)] rfl⟩

/-- **C5**: a transient page-fetch failure is retried with the same cursor
up to the fixed retry budget: failing the first K attempts with K < budget
and then succeeding still yields all items (K + 1 requests, all with the
same cursor); with K ≥ budget the sequence terminates with the propagated
transient error after exactly `budget` attempts; a non-transient 4xx
failure propagates immediately with no retry. -/
theorem c5_retry_budget {α : Type} (budget K : Nat) (params : ListParams)
    (e : Error) (he : e.isTransient = true) (d : List α)
    (status : Nat) (m dt : String)
    (h400 : 400 ≤ status) (h500 : status < 500) (h429 : status ≠ 429)
    (rest : List (PageFetch α)) (hb : 1 ≤ budget) :
    (K < budget →
      stream_paginated_request budget params
          (List.replicate K (.failure e) ++ [.success d none]) =
        (List.replicate (K + 1) ⟨none, params.page_size⟩, d, none)) ∧
    (budget ≤ K →
      stream_paginated_request budget params
          (List.replicate K (.failure e) ++ [.success d none]) =
        (List.replicate budget ⟨none, params.page_size⟩, [], some e)) ∧
    stream_paginated_request budget params (.failure (.api status m dt) :: rest) =
      ([⟨none, params.page_size⟩], [], some (.api status m dt)) := by
  refine ⟨?_, ?_, ?_⟩
  · intro hK
    simpa [stream_paginated_request] using
      paginate_transient_lt budget params.page_size e he d K budget none hK
  · intro hK
    have hsplit : List.replicate K (PageFetch.failure e) ++ [PageFetch.success d none] =
        List.replicate budget (PageFetch.failure e) ++
          (List.replicate (K - budget) (PageFetch.failure e) ++
            [PageFetch.success d none]) := by
      rw [← List.append_assoc, ← List.replicate_add]
      congr 2
      omega
    rw [stream_paginated_request, hsplit,
      paginate_transient_ge budget params.page_size e he budget none _ hb]
  · have hnt : (Error.api status m dt).isTransient = false := by
      simp [Error.isTransient]
      omega
    simpa [stream_paginated_request] using
      paginate_failure_nontransient budget params.page_size none budget
        (.api status m dt) rest hnt

/-- **C5** witness: budget 2; one transient failure then success yields the
page after 2 attempts; two transient failures exhaust the budget after
exactly 2 attempts; a 404 propagates immediately. -/
theorem c5_retry_budget_witness :
    Error.transport.isTransient = true ∧ (1 : Nat) ≤ 2 ∧ (1 : Nat) < 2 ∧
    stream_paginated_request 2 ListParams.DEFAULT
        (List.replicate 1 (.failure Error.transport) ++ [.success ["a"] none]) =
      (List.replicate 2 ⟨none, ListParams.DEFAULT.page_size⟩, ["a"], none) ∧
    (2 : Nat) ≤ 2 ∧
    stream_paginated_request 2 ListParams.DEFAULT
        (List.replicate 2 (.failure Error.transport) ++ [.success ["a"] none]) =
      (List.replicate 2 ⟨none, ListParams.DEFAULT.page_size⟩, [], some Error.transport) ∧
    (400 : Nat) ≤ 404 ∧ (404 : Nat) < 500 ∧ (404 : Nat) ≠ 429 ∧
    stream_paginated_request 2 ListParams.DEFAULT
        (.failure (Error.api 404 "Not Found" "") :: ([] : List (PageFetch String))) =
      ([⟨none, ListParams.DEFAULT.page_size⟩], [], some (Error.api 404 "Not Found" "")) :=
  ⟨rfl, by decide, by decide,
   (c5_retry_budget 2 1 ListParams.DEFAULT Error.transport rfl ["a"] 404 "Not Found" ""
      (by decide) (by decide) (by decide) [] (by decide)).1 (by decide),
   by decide,
   (c5_retry_budget 2 2 ListParams.DEFAULT Error.transport rfl ["a"] 404 "Not Found" ""
      (by decide) (by decide) (by decide) [] (by decide)).2.1 (by decide),
   by decide, by decide, by decide,
   (c5_retry_budget 2 1 ListParams.DEFAULT Error.transport rfl ["a"] 404 "Not Found" ""
      (by decide) (by decide) (by decide) [] (by decide)).2.2⟩

/-- **C6**: once a page envelope with `next_cursor = None` is received, the
sequence ends cleanly with that page's items and no further page request is
ever issued, whatever the rest of the transport script would have
answered — both from the initial state and from any mid-stream state. -/
theorem c6_terminal_no_further_fetches {α : Type} (budget : Nat) (params : ListParams)
    (page_size : Nat) (cursor : Option String) (attempts_left : Nat)
    (data : List α) (rest : List (PageFetch α)) :
    stream_paginated_request budget params (.success data none :: rest) =
      ([⟨none, params.page_size⟩], data, none) ∧
    paginate budget page_size cursor attempts_left (.success data none :: rest) =
      ([⟨cursor, page_size⟩], data, none) :=
  ⟨rfl, rfl⟩

/-- **C7**: each single-item operation performs exactly one network call —
its issued-request list is the singleton of the built request — and never
retries: the result is the one-shot decode of that single transport
outcome, and every failure kind surfaces as exactly one error value. -/
theorem c7_single_call_no_retry (c : Client) (sid iid : String)
    (trS : Request → ApiResponse (Subscription Customer))
    (trI : Request → ApiResponse Invoice) :
    (c.get_subscription sid trS).1 = [c.build_request "GET" ["subscriptions", sid]] ∧
    (c.get_subscription sid trS).2 =
      send_and_decode (trS (c.build_request "GET" ["subscriptions", sid])) ∧
    (c.get_invoice iid trI).1 = [c.build_request "GET" ["invoices", iid]] ∧
    (c.get_invoice iid trI).2 =
      send_and_decode (trI (c.build_request "GET" ["invoices", iid])) ∧
    (∀ st msg dt, send_and_decode (ApiResponse.errEnvelope st msg dt : ApiResponse Invoice) =
      .error (.api st msg dt)) ∧
    send_and_decode (ApiResponse.netFailure : ApiResponse Invoice) = .error .transport ∧
    send_and_decode (ApiResponse.success none : ApiResponse Invoice) =
      .error .deserializeError :=
  ⟨rfl, rfl, rfl, rfl, fun _ _ _ => rfl, rfl, rfl⟩

/-- **C8**: `list_invoices` attaches one repeated `("status[]", name)`
query pair for each status flag among draft, issued, paid, void, synced
that is true, in that fixed order, and none for a false flag. -/
theorem c8_status_query_pairs (c : Client) (p : InvoiceListParams) :
    (c.list_invoices_request p).query.filter (fun q => q.1 = "status[]") =
      (if p.status_filter.draft then [("status[]", "draft")] else []) ++
      (if p.status_filter.issued then [("status[]", "issued")] else []) ++
      (if p.status_filter.paid then [("status[]", "paid")] else []) ++
      (if p.status_filter.void then [("status[]", "void")] else []) ++
      (if p.status_filter.synced then [("status[]", "synced")] else []) := by
  obtain ⟨inner, cf, sf, f⟩ := p
  obtain ⟨fd, fi, fp, fv, fs⟩ := f
  cases cf with
  | none =>
    cases sf <;> cases fd <;> cases fi <;> cases fp <;> cases fv <;> cases fs <;>
      simp [Client.list_invoices_request, invoice_status_query, Client.build_request,
        Request.addQuery]
  | some cid =>
    cases cid <;> cases sf <;> cases fd <;> cases fi <;> cases fp <;> cases fv <;> cases fs <;>
      simp [Client.list_invoices_request, invoice_status_query, Client.build_request,
        Request.addQuery]

/-- **C9**: list parameters are immutable values with copy-on-write
setters: `page_size` preserves both filters, `customer_id` and `status`
each set only their own filter, and `default()` is the constant
`DEFAULT` with no filters set. -/
theorem c9_copy_on_write_params (p : SubscriptionListParams) (n : Nat)
    (cid : CustomerId) (st : String) :
    (p.page_size n).customer_id_filter = p.customer_id_filter ∧
    (p.page_size n).status_filter = p.status_filter ∧
    (p.customer_id cid).customer_id_filter = some cid ∧
    (p.customer_id cid).status_filter = p.status_filter ∧
    (p.customer_id cid).inner = p.inner ∧
    (p.status st).status_filter = some st ∧
    (p.status st).customer_id_filter = p.customer_id_filter ∧
    (p.status st).inner = p.inner ∧
    SubscriptionListParams.default = SubscriptionListParams.DEFAULT ∧
    SubscriptionListParams.DEFAULT.customer_id_filter = none ∧
    SubscriptionListParams.DEFAULT.status_filter = none :=
  ⟨rfl, rfl, rfl, rfl, rfl, rfl, rfl, rfl, rfl, rfl, rfl⟩

/-- **C10**: the default invoice status filter has issued, paid and synced
true and draft and void false, so `list_invoices` with default parameters
requests exactly `status[]=issued`, `status[]=paid`, `status[]=synced`,
excluding draft and void invoices. -/
theorem c10_default_status_filter (c : Client) :
    InvoiceStatusFilter.DEFAULT.issued = true ∧
    InvoiceStatusFilter.DEFAULT.paid = true ∧
    InvoiceStatusFilter.DEFAULT.synced = true ∧
    InvoiceStatusFilter.DEFAULT.draft = false ∧
    InvoiceStatusFilter.DEFAULT.void = false ∧
    InvoiceListParams.DEFAULT.status_filter = InvoiceStatusFilter.DEFAULT ∧
    (c.list_invoices_request InvoiceListParams.default).query.filter
        (fun q => q.1 = "status[]") =
      [("status[]", "issued"), ("status[]", "paid"), ("status[]", "synced")] := by
  refine ⟨rfl, rfl, rfl, rfl, rfl, rfl, ?_⟩
  simp [Client.list_invoices_request, invoice_status_query, Client.build_request,
    Request.addQuery, InvoiceListParams.default, InvoiceListParams.DEFAULT,
    InvoiceStatusFilter.DEFAULT]

end Orb
